import Mathlib

/-!
Shallow embedding of the geometric-temporal track-processing engine of
`src/gpxtrack.py` (classes `TrackPoint3D` and `Tracklog`).

Modelling conventions:
* Python floats are modelled as rationals (`ℚ`); all arithmetic the source
  performs (addition, subtraction, multiplication, division, comparison,
  rounding) is exact on the inputs used by the theorems below.
* A Python `datetime` is modelled by `PyDateTime`: the instant in seconds
  (`sec`) plus the timezone-awareness flag (`aware`, i.e. whether `tzinfo`
  is set).  A `timedelta` is a plain number of seconds.  Subtraction of
  datetimes compares the `sec` fields; comparing a naive and an aware
  datetime raises in Python and is outside every property proved here
  (the spec declares mixed tracks undefined behaviour).
* `TrackPoint3D.to_utm` calls the external `utm` library and
  `distance2D_to` then takes `math.sqrt` of the squared planar distance.
  Both are external-library code, so the planar metric is abstracted as a
  parameter `pd : ℚ → ℚ → ℚ → ℚ → ℚ` (lat₁, long₁, lat₂, long₂ ↦
  distance); every repository function is literally parametric in the
  values this computation returns, which the embedding makes explicit.
* The global `random` module is modelled by a `RandomState` (the seed
  set by `random.seed` plus a draw counter) together with an abstract
  stream `rand : ℕ → ℕ → ℚ` giving the value of the n-th draw after
  seeding with a given seed; `random.random()` reads the stream and
  advances the counter.
* Code that can raise (`IndexError`, `KeyError`, `TypeError`,
  `ZeroDivisionError`, scipy's bounds check) is modelled in the
  `Except String` monad.
-/

/-- A Python `datetime`: seconds since the epoch plus tz-awareness. -/
structure PyDateTime where
  sec : ℚ
  aware : Bool
deriving DecidableEq

/-- `TrackPoint3D` of `src/gpxtrack.py`: one track/way-point sample. -/
structure TrackPoint3D where
  name : String
  lat : ℚ
  long : ℚ
  elevation : ℚ
  timestamp : Option PyDateTime
  description : String
  comment : String
  speed : Option ℚ
deriving DecidableEq

instance : Inhabited TrackPoint3D :=
  ⟨{ name := "", lat := 0, long := 0, elevation := 0, timestamp := none,
     description := " ", comment := " ", speed := none }⟩

/-- State of the global `random` module: the last seed passed to
`random.seed` and how many draws have happened since. -/
structure RandomState where
  seed : ℕ
  counter : ℕ
deriving DecidableEq

/-- `random.random()`: draw the next value of the abstract stream `rand`
for the current seed and advance the counter. -/
def random_random (rand : ℕ → ℕ → ℚ) (g : RandomState) : ℚ × RandomState :=
  (rand g.seed g.counter, ⟨g.seed, g.counter + 1⟩)

/-- `TrackPoint3D.distance2D_to` (src/gpxtrack.py:60-68): planar distance
of the two points' projected coordinates, abstracted by the metric
parameter `pd` (the projection and square root are external libraries).
Only `lat`/`long` enter the computation. -/
def distance2D_to (pd : ℚ → ℚ → ℚ → ℚ → ℚ) (p q : TrackPoint3D) : ℚ :=
  pd p.lat p.long q.lat q.long

/-- `TrackPoint3D.attract_to` (src/gpxtrack.py:71-82): move this point
toward `other` by the weighted linear blend `(1-w)·self + w·other` of
latitude and longitude; elevation is blended only when
`preserve_elevation` is false.  (The Python method mutates and returns
`self`; the model returns the updated value.) -/
def TrackPoint3D.attract_to (p other : TrackPoint3D) (weight : ℚ)
    (preserve_elevation : Bool) : TrackPoint3D :=
  { p with
    lat := (1 - weight) * p.lat + weight * other.lat
    long := (1 - weight) * p.long + weight * other.long
    elevation :=
      if preserve_elevation then p.elevation
      else (1 - weight) * p.elevation + weight * other.elevation }

/-- `TrackPoint3D.set_timestamp` (src/gpxtrack.py:99-109): a naive
datetime is rebuilt from its fields down to whole seconds (dropping
microseconds) and marked UTC; an aware one is stored unchanged. -/
def TrackPoint3D.set_timestamp (p : TrackPoint3D) (new_timestamp : PyDateTime) :
    TrackPoint3D :=
  if new_timestamp.aware then { p with timestamp := some new_timestamp }
  else { p with timestamp := some ⟨Int.floor new_timestamp.sec, true⟩ }

/-- Python 3 `round`: round half to even (banker's rounding) to an
integer.  (On binary floats the halfway detection is approximate; on the
exact rationals used here it is the stated rule.) -/
def pyRoundHalfEven (q : ℚ) : ℤ :=
  let f : ℤ := Int.floor q
  let r : ℚ := q - f
  if r < 1/2 then f
  else if 1/2 < r then f + 1
  else if Even f then f else f + 1

/-- Python 3 `round(q, nd)`: round to `nd` decimal digits, half to even. -/
def pyRound (q : ℚ) (nd : ℕ) : ℚ :=
  (pyRoundHalfEven (q * 10 ^ nd) : ℚ) / 10 ^ nd

/-- `TrackPoint3D.regulate` (src/gpxtrack.py:119-134): round lat/long to
6 digits and elevation to 1 digit, then normalize a naive timestamp to a
whole-second UTC one.  Accessing `.tzinfo` on a missing timestamp raises
`AttributeError`. -/
def TrackPoint3D.regulate (p : TrackPoint3D) : Except String TrackPoint3D :=
  match p.timestamp with
  | none => Except.error "AttributeError: NoneType has no attribute tzinfo"
  | some t =>
    let t' : PyDateTime := if t.aware then t else ⟨Int.floor t.sec, true⟩
    Except.ok { p with
      lat := pyRound p.lat 6
      long := pyRound p.long 6
      elevation := pyRound p.elevation 1
      timestamp := some t' }

/-- `Tracklog.is_empty` (src/gpxtrack.py:317-321). -/
def is_empty (trackpoints : List TrackPoint3D) : Bool :=
  if 0 < trackpoints.length then false else true

/-- `Tracklog.has_timestamp` (src/gpxtrack.py:325-332): a track "has
timestamps" iff its first trackpoint carries one (a `datetime` object is
always truthy). -/
def has_timestamp (trackpoints : List TrackPoint3D) : Bool :=
  if is_empty trackpoints then false
  else
    match trackpoints.head? with
    | some p => p.timestamp.isSome
    | none => false

/-- `Tracklog.time_range` (src/gpxtrack.py:530-538): `none` on an empty
or timestamp-less track, otherwise the pair of the first trackpoint's
timestamp (present by `has_timestamp`) and the raw `timestamp` attribute
of the last trackpoint (which may itself be `None` on a mixed track). -/
def time_range (trackpoints : List TrackPoint3D) :
    Option (PyDateTime × Option PyDateTime) :=
  match trackpoints with
  | [] => none
  | p :: rest =>
    match p.timestamp with
    | some t0 => some (t0, (rest.getLastD p).timestamp)
    | none => none

/-- Run a fallible step over a list in order, collecting the results;
the first raised exception aborts the whole computation.  This is the
shape of every `for`-loop in the source that appends to a result list
and can raise. -/
def mapE (f : α → Except String β) : List α → Except String (List β)
  | [] => Except.ok []
  | x :: xs =>
    match f x with
    | Except.error e => Except.error e
    | Except.ok y =>
      match mapE f xs with
      | Except.error e => Except.error e
      | Except.ok ys => Except.ok (y :: ys)

/-- `Tracklog.track_length` (src/gpxtrack.py:336-356): sum of the planar
distances of consecutive trackpoints over an optional index range.
`if not from_index or from_index < 0` treats `None`, `0` and negatives
alike (truthiness), likewise `to_index`. -/
def track_length (pd : ℚ → ℚ → ℚ → ℚ → ℚ) (trackpoints : List TrackPoint3D)
    (from_index to_index : Option ℤ) : ℚ :=
  let n : ℤ := trackpoints.length
  if trackpoints.length < 2 then 0
  else
    let fi : ℤ :=
      match from_index with
      | none => 0
      | some i => if i = 0 ∨ i < 0 then 0 else i
    let ti : ℤ :=
      match to_index with
      | none => n
      | some i => if i = 0 ∨ n < i then n else i
    -- for index in range(from_index + 1, to_index); after the clamps
    -- every visited index is a valid position, so `getD` never defaults
    ((List.range' (fi.toNat + 1) (ti - (fi + 1)).toNat).map fun index =>
      distance2D_to pd (trackpoints.getD index default)
        (trackpoints.getD (index - 1) default)).sum

/-- `Tracklog.extents` (src/gpxtrack.py:542-563): the min/max of each of
latitude, longitude and elevation, returned as the dictionary the source
builds — note it contains only these six keys.  `none` on an empty
track. -/
def extents (trackpoints : List TrackPoint3D) : Option (List (String × ℚ)) :=
  match trackpoints with
  | [] => none
  | p :: rest =>
    some [("min-lat", (rest.map TrackPoint3D.lat).foldl min p.lat),
          ("max-lat", (rest.map TrackPoint3D.lat).foldl max p.lat),
          ("min-long", (rest.map TrackPoint3D.long).foldl min p.long),
          ("max-long", (rest.map TrackPoint3D.long).foldl max p.long),
          ("min-elevation", (rest.map TrackPoint3D.elevation).foldl min p.elevation),
          ("max-elevation", (rest.map TrackPoint3D.elevation).foldl max p.elevation)]

/-- `Tracklog.average_speed` (src/gpxtrack.py:512-521): reads
`extents['start-time']` — a key `extents` never produces — so on a
non-empty track it raises `KeyError`; on an empty track `extents()` is
`None` and the subscript raises `TypeError`.  (Were both keys present,
`(end_time - start_time).total_seconds` without the call parentheses
would still make the final division raise `TypeError`, which is what the
unreachable third branch records.) -/
def average_speed (pd : ℚ → ℚ → ℚ → ℚ → ℚ) (trackpoints : List TrackPoint3D) :
    Except String ℚ :=
  let ext := extents trackpoints
  let _tl := track_length pd trackpoints none none
  match ext with
  | none => Except.error "TypeError: NoneType object is not subscriptable"
  | some dict =>
    match dict.lookup "start-time" with
    | none => Except.error "KeyError: start-time"
    | some _ =>
      Except.error "TypeError: unsupported operand type for division"

/-- Inner scan of `Tracklog.find_nearest` (src/gpxtrack.py:423-434),
carrying the running `(nearest_index, min_dist)` state.  The test
`if min_dist:` is Python truthiness: it selects the update-the-minimum
branch only when `min_dist` is neither `None` nor `0.0`; a running
minimum of exactly `0.0` falls into the initialisation branch, which
overwrites it with the current distance unconditionally. -/
def find_nearest_go (pd : ℚ → ℚ → ℚ → ℚ → ℚ) (point : TrackPoint3D) :
    List TrackPoint3D → ℕ → Option ℕ → Option ℚ → Option ℕ × Option ℚ
  | [], _, nearest_index, min_dist => (nearest_index, min_dist)
  | trkpt :: rest, i, nearest_index, min_dist =>
    let dist := distance2D_to pd trkpt point
    let truthy : Bool :=
      match min_dist with
      | some m => decide (m ≠ 0)
      | none => false
    if truthy then
      match min_dist with
      | some m =>
        if dist < m then find_nearest_go pd point rest (i + 1) (some i) (some dist)
        else find_nearest_go pd point rest (i + 1) nearest_index min_dist
      | none => find_nearest_go pd point rest (i + 1) nearest_index min_dist
    else
      find_nearest_go pd point rest (i + 1) (some i) (some dist)

/-- `Tracklog.find_nearest` (src/gpxtrack.py:416-441): linear scan for
the trackpoint closest to `point`; returns its index when the tracked
minimum is strictly below `max_distance`, else `None`. -/
def find_nearest (pd : ℚ → ℚ → ℚ → ℚ → ℚ) (trackpoints : List TrackPoint3D)
    (point : TrackPoint3D) (max_distance : ℚ) : Option ℕ :=
  if is_empty trackpoints then none
  else
    let st := find_nearest_go pd point trackpoints 0 none none
    match st.2 with
    | some m => if m < max_distance then st.1 else none
    | none => none

/-- Loop of `Tracklog.update_speed` (src/gpxtrack.py:404-412): walk the
remaining points, setting each one's speed to the planar distance from
its predecessor divided by the elapsed seconds.  Equal consecutive
timestamps raise `ZeroDivisionError`; a missing timestamp makes the
datetime subtraction raise `TypeError`. -/
def update_speed_go (pd : ℚ → ℚ → ℚ → ℚ → ℚ) :
    TrackPoint3D → List TrackPoint3D → Except String (List TrackPoint3D)
  | _, [] => Except.ok []
  | prev, pt :: rest =>
    let dist := distance2D_to pd pt prev
    match pt.timestamp, prev.timestamp with
    | some t2, some t1 =>
      if t2.sec - t1.sec = 0 then
        Except.error "ZeroDivisionError: float division by zero"
      else
        let pt' := { pt with speed := some (dist / (t2.sec - t1.sec)) }
        match update_speed_go pd pt' rest with
        | Except.error e => Except.error e
        | Except.ok tail => Except.ok (pt' :: tail)
    | _, _ => Except.error "TypeError: unsupported operand for datetime"

/-- `Tracklog.update_speed` (src/gpxtrack.py:389-412): returns the new
trackpoint list together with the list of messages printed.  An empty
track returns silently; a 1-point track prints `Not Enough Data to
Calculate Speed`; a track without timestamps prints `No Timestamp Data`;
otherwise the first point's speed is set to `0` and the loop runs. -/
def update_speed (pd : ℚ → ℚ → ℚ → ℚ → ℚ) (trackpoints : List TrackPoint3D) :
    Except String (List TrackPoint3D × List String) :=
  if is_empty trackpoints then Except.ok (trackpoints, [])
  else if trackpoints.length < 2 then
    Except.ok (trackpoints, ["Not Enough Data to Calculate Speed"])
  else if has_timestamp trackpoints = false then
    Except.ok (trackpoints, ["No Timestamp Data"])
  else
    match trackpoints with
    | [] => Except.ok ([], [])
    | p0 :: rest =>
      let q0 := { p0 with speed := some 0 }
      match update_speed_go pd q0 rest with
      | Except.error e => Except.error e
      | Except.ok tail => Except.ok (q0 :: tail, [])

/-- Loop of `Tracklog.regulate_points` (src/gpxtrack.py:582-589): keep a
point only when at least `min_deltatime_sec` seconds passed since the
last kept point (initially the first trackpoint, which the loop itself
never emits). -/
def regulate_go : TrackPoint3D → List TrackPoint3D → ℚ →
    Except String (List TrackPoint3D)
  | _, [], _ => Except.ok []
  | last_point, pt :: rest, min_dt =>
    match pt.timestamp, last_point.timestamp with
    | some tp, some tl =>
      if min_dt ≤ tp.sec - tl.sec then
        match regulate_go pt rest min_dt with
        | Except.error e => Except.error e
        | Except.ok tail => Except.ok (pt :: tail)
      else regulate_go last_point rest min_dt
    | _, _ => Except.error "TypeError: unsupported operand for datetime"

/-- `Tracklog.regulate_points` (src/gpxtrack.py:576-591): time-decimate
the trackpoints.  `self.trackpoints[0]` raises `IndexError` on an empty
track; the first trackpoint seeds `last_point` but is never appended to
the result. -/
def regulate_points (trackpoints : List TrackPoint3D) (min_deltatime_sec : ℚ) :
    Except String (List TrackPoint3D) :=
  match trackpoints with
  | [] => Except.error "IndexError: list index out of range"
  | p0 :: rest => regulate_go p0 rest min_deltatime_sec

/-- Loop of `Tracklog.randomize_elev` (src/gpxtrack.py:570-572): add a
uniform jitter in `(-div_z, div_z)` to every elevation, drawing one
value per point from the seeded stream. -/
def randomize_go (rand : ℕ → ℕ → ℚ) (div_z : ℚ) :
    RandomState → List TrackPoint3D → List TrackPoint3D × RandomState
  | g, [] => ([], g)
  | g, pt :: rest =>
    let (r, g1) := random_random rand g
    let z_div := -div_z + 2 * div_z * r
    let (tail, g2) := randomize_go rand div_z g1 rest
    ({ pt with elevation := pt.elevation + z_div } :: tail, g2)

/-- `Tracklog.randomize_elev` (src/gpxtrack.py:567-572): reseed the
global random source with the fixed seed `341`, then jitter every
elevation.  The incoming random state is discarded by the reseed. -/
def randomize_elev (rand : ℕ → ℕ → ℚ) (_g : RandomState)
    (trackpoints : List TrackPoint3D) (div_z : ℚ) :
    List TrackPoint3D × RandomState :=
  randomize_go rand div_z ⟨341, 0⟩ trackpoints

/-- Loop of `Tracklog.add_missing_timestamp` (src/gpxtrack.py:499-508):
`while index <= end_index`, synthesize the timestamp of point `index`
from the previous point's (already assigned) timestamp by forward
integration at speed `average_speed + div·U`, drawing one uniform value
per point.  An `end_index` at or beyond the list length raises
`IndexError` when the subscript reaches it. -/
def amt_go (rand : ℕ → ℕ → ℚ) (pd : ℚ → ℚ → ℚ → ℚ → ℚ)
    (average_speed div : ℚ) (end_index : ℤ) (cur : List TrackPoint3D)
    (index : ℤ) (g : RandomState) :
    Except String (List TrackPoint3D × RandomState) :=
  if _h : index ≤ end_index then
    match cur.get? index.toNat, cur.get? (index.toNat - 1) with
    | some pti, some ptim =>
      let dist := distance2D_to pd pti ptim
      let (r, g1) := random_random rand g
      let speed := average_speed + div * (2 * r - 1)
      if speed = 0 then Except.error "ZeroDivisionError: float division by zero"
      else
        match ptim.timestamp with
        | none => Except.error "TypeError: unsupported operand for datetime"
        | some tprev =>
          let new_timestamp : PyDateTime := ⟨tprev.sec + dist / speed, tprev.aware⟩
          amt_go rand pd average_speed div end_index
            (cur.set index.toNat (pti.set_timestamp new_timestamp)) (index + 1) g1
    | _, _ => Except.error "IndexError: list index out of range"
  else Except.ok (cur, g)
termination_by (end_index + 1 - index).toNat
decreasing_by omega

/-- `Tracklog.add_missing_timestamp` (src/gpxtrack.py:487-508): assign
`start_time` to the first trackpoint verbatim, reseed the global random
source with the fixed seed `157`, then forward-integrate the remaining
timestamps up to `end_index` (defaulting — by the truthiness test
`if not end_index:` — on both `None` and `0` to the last index). -/
def add_missing_timestamp (rand : ℕ → ℕ → ℚ) (g : RandomState)
    (pd : ℚ → ℚ → ℚ → ℚ → ℚ) (trackpoints : List TrackPoint3D)
    (start_time : PyDateTime) (average_speed div : ℚ) (end_index : Option ℤ) :
    Except String (List TrackPoint3D × RandomState) :=
  if trackpoints.length < 1 then Except.ok (trackpoints, g)
  else
    let ei : ℤ :=
      match end_index with
      | none => (trackpoints.length : ℤ) - 1
      | some e => if e = 0 then (trackpoints.length : ℤ) - 1 else e
    let cur0 :=
      match trackpoints with
      | [] => []
      | p :: rest => { p with timestamp := some start_time } :: rest
    amt_go rand pd average_speed div ei cur0 1 ⟨157, 0⟩

/-- `scipy.interpolate.interp1d(xdata, ys, 'linear')` evaluated at `x`,
for `xdata = 0, 1, ..., len(ys)-1`: piecewise-linear interpolation with
the default bounds check (`bounds_error`), which raises `ValueError` for
sample positions outside `[0, len(ys)-1]`.  All call sites pass lists of
length ≥ 3, so the `getD` defaults are never reached. -/
def lin_interp (ys : List ℚ) (x : ℚ) : Except String ℚ :=
  if x < 0 ∨ (ys.length : ℚ) - 1 < x then
    Except.error "ValueError: A value in x_new is out of range"
  else
    let k : ℕ := min (Int.floor x).toNat (ys.length - 2)
    Except.ok (ys.getD k 0 + (x - (k : ℚ)) * (ys.getD (k + 1) 0 - ys.getD k 0))

/-- `Tracklog.reconstruct` (src/gpxtrack.py:359-385): for a track of
more than 2 points, interpolate latitude, longitude and elevation as
independent channels over the original index range and sample them at
`np.linspace(0, n_trackpoints, n_nodes, endpoint=False)`, i.e. at
`i * n_trackpoints / n_nodes` for `i < n_nodes`; the new points get
fresh names, no timestamp and default fields.  Tracks of 2 or fewer
points are left unchanged.  (The model fixes the interpolation kind to
the default `'linear'`; other kinds are scipy internals.) -/
def reconstruct (trackpoints : List TrackPoint3D) (n_nodes : ℕ) :
    Except String (List TrackPoint3D) :=
  let n := trackpoints.length
  if 2 < n then
    let latdata := trackpoints.map TrackPoint3D.lat
    let longdata := trackpoints.map TrackPoint3D.long
    let elevdata := trackpoints.map TrackPoint3D.elevation
    let new_xdata := (List.range n_nodes).map fun i : ℕ =>
      ((i : ℚ) * (n : ℚ)) / (n_nodes : ℚ)
    match mapE (lin_interp latdata) new_xdata with
    | Except.error e => Except.error e
    | Except.ok new_latdata =>
      match mapE (lin_interp longdata) new_xdata with
      | Except.error e => Except.error e
      | Except.ok new_longdata =>
        match mapE (lin_interp elevdata) new_xdata with
        | Except.error e => Except.error e
        | Except.ok new_elevdata =>
          Except.ok ((List.range new_latdata.length).map fun i =>
            { name := "trkpt" ++ toString i
              lat := new_latdata.getD i 0
              long := new_longdata.getD i 0
              elevation := new_elevdata.getD i 0
              timestamp := none
              description := " "
              comment := " "
              speed := none })
  else Except.ok trackpoints

/-- The comparison `pt1.timestamp > pt2.timestamp` used by the sorting
loops.  Python would raise comparing a missing timestamp; every sorting
property below hypothesises that all points carry one, making the
`false` fallback unreachable (the spec declares mixed tracks undefined
behaviour). -/
def tsGt (p q : TrackPoint3D) : Bool :=
  match p.timestamp, q.timestamp with
  | some a, some b => decide (b.sec < a.sec)
  | _, _ => false

/-- The timestamp key a point is sorted by (defaulting for the
unreachable missing-timestamp case). -/
def tsKey (p : TrackPoint3D) : ℚ :=
  match p.timestamp with
  | some a => a.sec
  | none => 0

/-- Inner loop of `Tracklog.sort_trackpoints` (src/gpxtrack.py:773-781)
for a fixed outer index: `c` is the current occupant of position `i1`
and the list is the (mutable) suffix beyond it; each comparison
`pt1.timestamp > pt2.timestamp` either swaps the occupant with the
scanned cell or leaves both.  Returns the final occupant of `i1`
together with the final suffix. -/
def sort_pass : TrackPoint3D → List TrackPoint3D →
    TrackPoint3D × List TrackPoint3D
  | c, [] => (c, [])
  | c, x :: xs =>
    if tsGt c x then
      let p := sort_pass x xs
      (p.1, c :: p.2)
    else
      let p := sort_pass c xs
      (p.1, x :: p.2)

theorem sort_pass_length (c : TrackPoint3D) (l : List TrackPoint3D) :
    (sort_pass c l).2.length = l.length := by
  induction l generalizing c with
  | nil => rfl
  | cons x xs ih =>
    simp only [sort_pass]
    by_cases h : tsGt c x <;> simp [h, ih]

/-- `Tracklog.sort_trackpoints` (src/gpxtrack.py:769-781): the exchange
sort of the source, written recursively: the outer iteration for index
`i1` fixes the final occupant of that position (the pass result) and the
remaining iterations sort the final suffix. -/
def sort_trackpoints : List TrackPoint3D → List TrackPoint3D
  | [] => []
  | x :: xs =>
    let p := sort_pass x xs
    p.1 :: sort_trackpoints p.2
termination_by l => l.length
decreasing_by simp [sort_pass_length]

/-- One iteration of the loop of `Tracklog.attract_to`
(src/gpxtrack.py:714-732), operating on the current (mutated-so-far)
trackpoint list `cur` at position `i`.  A point strictly inside the
window is looked up in the *reference* track, but — as the source is
written — the blend target is then fetched as `self.at_index(...)`, i.e.
from the track's own list, and the found index is tested for Python
truthiness (`if target_index:`), so an index of `0` counts as no match.
Since the point object is mutated in place, the iteration returns `cur`
with position `i` replaced. -/
def attract_step (pd : ℚ → ℚ → ℚ → ℚ → ℚ) (otherT : List TrackPoint3D)
    (max_dist attr_weight : ℚ) (preserve_height : Bool)
    (startT endT : PyDateTime) (cur : List TrackPoint3D) (i : ℕ) :
    Except String (List TrackPoint3D) :=
  match cur.get? i with
  | none => Except.error "IndexError: list index out of range"
  | some trkpt =>
    match trkpt.timestamp with
    | none => Except.error "TypeError: comparison of datetime and NoneType"
    | some t =>
      if startT.sec < t.sec ∧ t.sec < endT.sec then
        match find_nearest pd otherT trkpt max_dist with
        | some target_index =>
          if target_index ≠ 0 then
            match cur.get? target_index with
            | some target =>
              Except.ok (cur.set i (trkpt.attract_to target attr_weight preserve_height))
            | none => Except.error "IndexError: list index out of range"
          else Except.ok (cur.set i trkpt)
        | none => Except.ok (cur.set i trkpt)
      else Except.ok (cur.set i trkpt)

/-- The loop of `Tracklog.attract_to`: `fuel` counts the iterations left
(the Python `for` iterates once per point of the original list) and `i`
is the current position. -/
def attract_go (pd : ℚ → ℚ → ℚ → ℚ → ℚ) (otherT : List TrackPoint3D)
    (max_dist attr_weight : ℚ) (preserve_height : Bool)
    (startT endT : PyDateTime) :
    ℕ → ℕ → List TrackPoint3D → Except String (List TrackPoint3D)
  | 0, _, cur => Except.ok cur
  | fuel + 1, i, cur =>
    match attract_step pd otherT max_dist attr_weight preserve_height
        startT endT cur i with
    | Except.error e => Except.error e
    | Except.ok cur' =>
      attract_go pd otherT max_dist attr_weight preserve_height
        startT endT fuel (i + 1) cur'

/-- `Tracklog.attract_to` (src/gpxtrack.py:694-734): snap this track's
points toward `other`.  The window defaults to the track's own time
range (`time_extents[0]`/`[1]`; subscripting a `None` range raises
`TypeError`, and a missing default end bound makes the later datetime
comparison raise), the bounds are swapped when given in reverse order,
and each point is processed by `attract_step`. -/
def attract_to (pd : ℚ → ℚ → ℚ → ℚ → ℚ)
    (selfT otherT : List TrackPoint3D) (max_dist attr_weight : ℚ)
    (preserve_height : Bool) (start_time end_time : Option PyDateTime) :
    Except String (List TrackPoint3D) :=
  let time_extents := time_range selfT
  let startE : Except String PyDateTime :=
    match start_time with
    | some s => Except.ok s
    | none =>
      match time_extents with
      | some (s0, _) => Except.ok s0
      | none => Except.error "TypeError: NoneType object is not subscriptable"
  let endE : Except String PyDateTime :=
    match end_time with
    | some e => Except.ok e
    | none =>
      match time_extents with
      | some (_, some e0) => Except.ok e0
      | some (_, none) => Except.error "TypeError: comparison of datetime and NoneType"
      | none => Except.error "TypeError: NoneType object is not subscriptable"
  match startE, endE with
  | Except.error e, _ => Except.error e
  | _, Except.error e => Except.error e
  | Except.ok s, Except.ok e =>
    let b : PyDateTime × PyDateTime := if e.sec < s.sec then (e, s) else (s, e)
    attract_go pd otherT max_dist attr_weight preserve_height b.1 b.2
      selfT.length 0 selfT

/-- `Tracklog.export_gpx` (src/gpxtrack.py:785-830) as a state
transformer: before anything is serialized the method time-decimates the
trackpoints with `regulate_points(2)` and jitters their elevations with
`randomize_elev(4)`, and while emitting waypoints it calls
`pt3D.regulate()` on each.  The returned triple is the in-memory state
after the call: the new trackpoints, the new waypoints and the random
state.  (Building the XML document and writing the file are external
`gpxpy`/file-system calls that read, but do not further change, this
state.) -/
def export_gpx (rand : ℕ → ℕ → ℚ) (g : RandomState)
    (trackpoints waypoints : List TrackPoint3D) :
    Except String (List TrackPoint3D × List TrackPoint3D × RandomState) :=
  match regulate_points trackpoints 2 with
  | Except.error e => Except.error e
  | Except.ok tps1 =>
    let jz := randomize_elev rand g tps1 4
    match mapE TrackPoint3D.regulate waypoints with
    | Except.error e => Except.error e
    | Except.ok wps1 => Except.ok (jz.1, wps1, jz.2)

/-- A concrete instance of the abstract planar metric, used to evaluate
the embedding on concrete inputs: the taxicab distance of the raw
coordinates (any concrete choice works — the repository's logic is
parametric in the metric). -/
def pd0 : ℚ → ℚ → ℚ → ℚ → ℚ := fun lat1 long1 lat2 long2 =>
  |lat1 - lat2| + |long1 - long2|

/-- A concrete instance of the abstract random stream. -/
def rand0 : ℕ → ℕ → ℚ := fun _seed i => 1 / (i + 2)

/-- Build a sample point with default description/comment/speed. -/
def mkPt (name : String) (lat long elev : ℚ) (ts : Option PyDateTime) :
    TrackPoint3D :=
  { name := name, lat := lat, long := long, elevation := elev,
    timestamp := ts, description := " ", comment := " ", speed := none }

/-- An aware (UTC) timestamp at `s` seconds. -/
def aw (s : ℚ) : PyDateTime := ⟨s, true⟩

deriving instance DecidableEq for Except

/-- Sample point sitting exactly at the query position used for the
`find_nearest` evaluation (distance `0`). -/
def ptQ : TrackPoint3D := mkPt "q" 0 0 100 (some (aw 0))

/-- Sample point at taxicab distance `2` from `ptQ`. -/
def ptR : TrackPoint3D := mkPt "r" 1 1 100 (some (aw 10))

/-- First point of the 2-point decimation fixture (t = 0 s). -/
def ptT0 : TrackPoint3D := mkPt "p0" 0 0 5 (some (aw 0))

/-- Second point of the 2-point decimation fixture (t = 10 s). -/
def ptT1 : TrackPoint3D := mkPt "p1" 1 1 6 (some (aw 10))

/-- Source track for the attraction fixtures: first point (window start). -/
def srcP0 : TrackPoint3D := mkPt "P0" 0 0 0 (some (aw 0))

/-- Source track point at (10, 10), strictly inside the time window. -/
def srcA : TrackPoint3D := mkPt "A" 10 10 7 (some (aw 100))

/-- Source track for the attraction fixtures: last point (window end). -/
def srcP2 : TrackPoint3D := mkPt "P2" 0 0 0 (some (aw 200))

/-- Reference-track point far away from everything. -/
def refFar : TrackPoint3D := mkPt "far" (-100) (-100) 0 (some (aw 0))

/-- A second far-away reference-track point. -/
def refFar2 : TrackPoint3D := mkPt "far2" (-90) (-90) 0 (some (aw 0))

/-- Reference-track point at (20, 20), the nearest one to `srcA`; placed
at index 2 of its track for the C1 fixture. -/
def refNear : TrackPoint3D := mkPt "ref" 20 20 50 (some (aw 100))

/-- Reference-track point at (20, 20) placed at index 0 of its track for
the C9 fixture. -/
def refNearA : TrackPoint3D := mkPt "refA" 20 20 50 (some (aw 100))

/-- First point of the 3-point resampling fixture. -/
def triA : TrackPoint3D := mkPt "a" 0 0 0 none

/-- Second point of the 3-point resampling fixture. -/
def triB : TrackPoint3D := mkPt "b" 3 0 1 none

/-- Third point of the 3-point resampling fixture. -/
def triC : TrackPoint3D := mkPt "c" 3 4 2 none

/-- First point of the speed fixture (t = 0 s, planar origin). -/
def ptU1 : TrackPoint3D := mkPt "u1" 0 0 0 (some (aw 0))

/-- Second point of the speed fixture (t = 10 s, taxicab distance 6). -/
def ptU2 : TrackPoint3D := mkPt "u2" 6 0 0 (some (aw 10))

/-- The point `p` with its derived speed field set to `v`. -/
def withSpeed (p : TrackPoint3D) (v : ℚ) : TrackPoint3D :=
  { p with speed := some v }

/-- Sorting fixture: latest point first (t = 30 s). -/
def ptS1 : TrackPoint3D := mkPt "s1" 0 0 0 (some (aw 30))

/-- Sorting fixture: earliest point (t = 10 s). -/
def ptS2 : TrackPoint3D := mkPt "s2" 1 0 0 (some (aw 10))

/-- Sorting fixture: middle point (t = 20 s). -/
def ptS3 : TrackPoint3D := mkPt "s3" 2 0 0 (some (aw 20))

theorem mapE_length (f : α → Except String β) (l : List α)
    (r : List β) (h : mapE f l = Except.ok r) : r.length = l.length := by
  induction l generalizing r with
  | nil =>
    simp only [mapE] at h
    cases h
    rfl
  | cons x xs ih =>
    simp only [mapE] at h
    cases hx : f x with
    | error e => rw [hx] at h; exact absurd h (by simp)
    | ok y =>
      rw [hx] at h
      cases hxs : mapE f xs with
      | error e => rw [hxs] at h; exact absurd h (by simp)
      | ok ys =>
        rw [hxs] at h
        cases h
        simp [ih ys hxs]

theorem mapE_isOk (f : α → Except String β) (l : List α)
    (h : ∀ x ∈ l, ∃ y, f x = Except.ok y) :
    ∃ r, mapE f l = Except.ok r := by
  induction l with
  | nil => exact ⟨[], rfl⟩
  | cons x xs ih =>
    obtain ⟨y, hy⟩ := h x (by simp)
    obtain ⟨ys, hys⟩ := ih (fun z hz => h z (by simp [hz]))
    exact ⟨y :: ys, by simp [mapE, hy, hys]⟩

theorem mapE_get (f : α → Except String β) (l : List α) (r : List β)
    (h : mapE f l = Except.ok r) (n : ℕ) (a : α) (hn : l.get? n = some a) :
    ∃ b, f a = Except.ok b ∧ r.get? n = some b := by
  induction l generalizing r n with
  | nil => simp at hn
  | cons x xs ih =>
    simp only [mapE] at h
    cases hx : f x with
    | error e => rw [hx] at h; exact absurd h (by simp)
    | ok y =>
      rw [hx] at h
      cases hxs : mapE f xs with
      | error e => rw [hxs] at h; exact absurd h (by simp)
      | ok ys =>
        rw [hxs] at h
        cases h
        cases n with
        | zero =>
          simp only [List.get?] at hn
          cases hn
          exact ⟨y, hx, rfl⟩
        | succ m =>
          simp only [List.get?] at hn ⊢
          exact ih ys hxs m hn

/-- Claim C1 (code bug): `Tracklog.attract_to` is supposed to blend a
matched source point with the nearest *reference* point — for the source
point `srcA` at (10, 10), matched (with weight 1/2) to the reference
point `refNear` at (20, 20), the claim demands exactly (15, 15).  The
source instead fetches the blend target as `self.at_index(target_index)`
— from the source track itself — so `srcA` is blended with its own
track's point at index 2 (`srcP2` at (0, 0)) and comes out at (5, 5). -/
theorem attract_to_blends_self_point :
    attract_to pd0 [srcP0, srcA, srcP2] [refFar, refFar2, refNear]
      50 (1/2) true none none =
      Except.ok [srcP0, { srcA with lat := 5, long := 5 }, srcP2] ∧
    find_nearest pd0 [refFar, refFar2, refNear] srcA 50 = some 2 := by
  constructor <;>
    norm_num [attract_to, attract_go, attract_step, time_range, find_nearest,
      find_nearest_go, is_empty, distance2D_to, pd0, TrackPoint3D.attract_to,
      srcP0, srcA, srcP2, refFar, refFar2, refNear, mkPt, aw]

/-- Claim C2 (code bug): `find_nearest` is supposed to return the index
of the minimum-distance trackpoint whenever that minimum is within the
threshold.  Because the running minimum is tested for Python truthiness
(`if min_dist:`), a running minimum of exactly `0.0` is overwritten by
the next distance scanned: on a track whose first point is at distance 0
from the query and whose second point is farther than the threshold, the
scan forgets the exact hit and reports "not found". -/
theorem find_nearest_forgets_zero_distance :
    find_nearest pd0 [ptQ, ptR] ptQ 1 = none ∧
    distance2D_to pd0 ptQ ptQ = 0 := by
  constructor <;>
    norm_num [find_nearest, find_nearest_go, is_empty, distance2D_to, pd0,
      ptQ, ptR, mkPt, aw]

/-- Claim C3 (code bug): `regulate_points` is supposed to always retain
the first original trackpoint.  The loop seeds `last_point` with
`trackpoints[0]` but never appends it to the result list, so the first
point is dropped from the output: on the 2-point track `[ptT0, ptT1]`
(10 s apart, minimum gap 2 s) the result is `[ptT1]` alone. -/
theorem regulate_points_drops_first_point :
    regulate_points [ptT0, ptT1] 2 = Except.ok [ptT1] := by
  norm_num [regulate_points, regulate_go, ptT0, ptT1, mkPt, aw]

/-- Claim C5 (code bug): `average_speed` is supposed to return total
length divided by total duration, but it reads `extents()['start-time']`
and the dictionary built by `extents` has only the six min/max
lat/long/elevation keys, so every call on a non-empty track raises
`KeyError` (an empty track subscripts `None` and raises `TypeError`);
no numeric result is ever produced. -/
theorem average_speed_always_raises (pd : ℚ → ℚ → ℚ → ℚ → ℚ)
    (trackpoints : List TrackPoint3D) :
    average_speed pd trackpoints =
      Except.error (if trackpoints.isEmpty then
        "TypeError: NoneType object is not subscriptable"
      else "KeyError: start-time") := by
  cases trackpoints with
  | nil => rfl
  | cons p rest => rfl

/-- Claim C8 (confirmed): `add_missing_timestamp` reseeds the global
random source with the fixed, non-caller-configurable seed `157` before
drawing any jitter, so the trackpoints it produces do not depend on the
prior state of the random source: two runs from arbitrary prior states
`g1`, `g2` on identical inputs assign identical timestamps. -/
theorem add_missing_timestamp_deterministic (rand : ℕ → ℕ → ℚ)
    (pd : ℚ → ℚ → ℚ → ℚ → ℚ) (trackpoints : List TrackPoint3D)
    (start_time : PyDateTime) (average_speed div : ℚ) (end_index : Option ℤ)
    (g1 g2 : RandomState) :
    (add_missing_timestamp rand g1 pd trackpoints start_time average_speed
        div end_index).map Prod.fst =
    (add_missing_timestamp rand g2 pd trackpoints start_time average_speed
        div end_index).map Prod.fst := by
  unfold add_missing_timestamp
  by_cases h : trackpoints.length < 1
  · simp [h, Except.map]
  · simp [h]

/-- Claim C10 (confirmed): `export_gpx` is not read-only — before
serializing it always runs `regulate_points(2)` followed by
`randomize_elev(4)` on the track itself (and `regulate()` on each
waypoint), so whenever those steps succeed the in-memory trackpoint
sequence after the call is exactly the time-decimated,
elevation-jittered sequence. -/
theorem export_gpx_replaces_trackpoints (rand : ℕ → ℕ → ℚ) (g : RandomState)
    (trackpoints waypoints tps1 wps1 : List TrackPoint3D)
    (h1 : regulate_points trackpoints 2 = Except.ok tps1)
    (h2 : mapE TrackPoint3D.regulate waypoints = Except.ok wps1) :
    export_gpx rand g trackpoints waypoints =
      Except.ok ((randomize_elev rand g tps1 4).1, wps1,
        (randomize_elev rand g tps1 4).2) := by
  unfold export_gpx
  rw [h1, h2]

/-- Witness for C10: exporting the concrete 2-point track evaluates the
theorem's hypotheses on concrete data (no waypoints; decimation keeps
only `ptT1`). -/
theorem export_gpx_replaces_trackpoints_witness :
    export_gpx rand0 ⟨0, 0⟩ [ptT0, ptT1] [] =
      Except.ok ((randomize_elev rand0 ⟨0, 0⟩ [ptT1] 4).1, [],
        (randomize_elev rand0 ⟨0, 0⟩ [ptT1] 4).2) :=
  export_gpx_replaces_trackpoints rand0 ⟨0, 0⟩ [ptT0, ptT1] [] [ptT1] []
    (by norm_num [regulate_points, regulate_go, ptT0, ptT1, mkPt, aw]) rfl

theorem attract_step_shape (pd : ℚ → ℚ → ℚ → ℚ → ℚ)
    (otherT : List TrackPoint3D) (max_dist attr_weight : ℚ)
    (preserve_height : Bool) (startT endT : PyDateTime)
    (cur cur' : List TrackPoint3D) (i : ℕ)
    (h : attract_step pd otherT max_dist attr_weight preserve_height
      startT endT cur i = Except.ok cur') :
    ∃ v, cur' = cur.set i v := by
  unfold attract_step at h
  repeat' split at h
  all_goals cases h <;> exact ⟨_, rfl⟩

theorem attract_go_get_lt (pd : ℚ → ℚ → ℚ → ℚ → ℚ)
    (otherT : List TrackPoint3D) (max_dist attr_weight : ℚ)
    (preserve_height : Bool) (startT endT : PyDateTime) (fuel : ℕ) :
    ∀ (i : ℕ) (cur res : List TrackPoint3D),
      attract_go pd otherT max_dist attr_weight preserve_height startT endT
        fuel i cur = Except.ok res →
      ∀ n < i, res.get? n = cur.get? n := by
  induction fuel with
  | zero =>
    intro i cur res h n hn
    simp only [attract_go] at h
    cases h
    rfl
  | succ k ih =>
    intro i cur res h n hn
    simp only [attract_go] at h
    cases hstep : attract_step pd otherT max_dist attr_weight preserve_height
        startT endT cur i with
    | error e => rw [hstep] at h; exact absurd h (by simp)
    | ok cur' =>
      rw [hstep] at h
      obtain ⟨v, rfl⟩ := attract_step_shape pd otherT max_dist attr_weight
        preserve_height startT endT cur _ i hstep
      rw [ih (i + 1) _ res h n (by omega), List.get?_set_ne v _ (by omega)]

theorem attract_go_pointwise (pd : ℚ → ℚ → ℚ → ℚ → ℚ)
    (otherT : List TrackPoint3D) (max_dist attr_weight : ℚ)
    (preserve_height : Bool) (startT endT : PyDateTime) (fuel : ℕ) :
    ∀ (i : ℕ) (cur res : List TrackPoint3D),
      attract_go pd otherT max_dist attr_weight preserve_height startT endT
        fuel i cur = Except.ok res →
      ∀ n, i ≤ n → n < i + fuel →
      ∀ pt t, cur.get? n = some pt → pt.timestamp = some t →
        startT.sec < t.sec → t.sec < endT.sec →
        find_nearest pd otherT pt max_dist = some 0 →
        res.get? n = some pt := by
  induction fuel with
  | zero => intro i cur res _ n h1 h2; omega
  | succ k ih =>
    intro i cur res h n hi hn pt t hpt hts hw1 hw2 hfn
    simp only [attract_go] at h
    cases hstep : attract_step pd otherT max_dist attr_weight preserve_height
        startT endT cur i with
    | error e => rw [hstep] at h; exact absurd h (by simp)
    | ok cur' =>
      rw [hstep] at h
      rcases Nat.eq_or_lt_of_le hi with heq | hlt
      · -- this is exactly the iteration processing position n = i: the
        -- nearest index 0 is falsy, so the point is written back unchanged
        cases heq
        have hcur' : cur' = cur.set i pt := by
          unfold attract_step at hstep
          simp only [hpt, hts] at hstep
          rw [if_pos ⟨hw1, hw2⟩] at hstep
          simp only [hfn, ne_eq, not_true_eq_false, if_false, ite_false] at hstep
          cases hstep
          rfl
        rw [attract_go_get_lt pd otherT max_dist attr_weight preserve_height
          startT endT k (i + 1) cur' res h i (by omega), hcur',
          List.get?_set_eq_of_lt pt (List.get?_eq_some.mp hpt).1]
      · obtain ⟨v, rfl⟩ := attract_step_shape pd otherT max_dist attr_weight
          preserve_height startT endT cur _ i hstep
        exact ih (i + 1) _ res h n hlt (by omega) pt t
          (by rw [List.get?_set_ne v _ (by omega)]; exact hpt) hts hw1 hw2 hfn

/-- Claim C9 (confirmed): in `Tracklog.attract_to`, the index returned
by `find_nearest` is tested for Python truthiness (`if target_index:`),
and `0` is falsy — so a source point (strictly inside an explicitly
given, correctly ordered window) whose nearest in-range reference point
sits at index 0 of the searched track is treated as having no match and
passes through unchanged. -/
theorem attract_to_skips_index_zero (pd : ℚ → ℚ → ℚ → ℚ → ℚ)
    (selfT otherT res : List TrackPoint3D) (max_dist attr_weight : ℚ)
    (preserve_height : Bool) (s e : PyDateTime) (n : ℕ) (pt : TrackPoint3D)
    (t : PyDateTime)
    (hok : attract_to pd selfT otherT max_dist attr_weight preserve_height
      (some s) (some e) = Except.ok res)
    (hse : ¬ e.sec < s.sec)
    (hn : selfT.get? n = some pt)
    (ht : pt.timestamp = some t)
    (hw1 : s.sec < t.sec) (hw2 : t.sec < e.sec)
    (hfn : find_nearest pd otherT pt max_dist = some 0) :
    res.get? n = some pt := by
  unfold attract_to at hok
  simp only [if_neg hse] at hok
  exact attract_go_pointwise pd otherT max_dist attr_weight preserve_height
    s e selfT.length 0 selfT res hok n (Nat.zero_le n)
    (by simpa using (List.get?_eq_some.mp hn).1) pt t hn ht hw1 hw2 hfn

/-- Witness for C9: the source point `srcA` at (10, 10), strictly inside
the explicit window (0 s, 200 s), has its nearest reference point
(`refNearA`, distance 20 ≤ 50) at index 0 — and survives `attract_to`
unchanged. -/
theorem attract_to_skips_index_zero_witness :
    ([srcP0, srcA, srcP2] : List TrackPoint3D).get? 1 = some srcA :=
  attract_to_skips_index_zero pd0 [srcP0, srcA, srcP2] [refNearA, refFar]
    [srcP0, srcA, srcP2] 50 (1/2) true (aw 0) (aw 200) 1 srcA (aw 100)
    (by norm_num [attract_to, attract_go, attract_step, time_range,
      find_nearest, find_nearest_go, is_empty, distance2D_to, pd0,
      srcP0, srcA, srcP2, refNearA, refFar, mkPt, aw])
    (by norm_num [aw]) (by norm_num [srcP0, srcA, srcP2, mkPt])
    (by norm_num [srcA, mkPt, aw]) (by norm_num [aw]) (by norm_num [aw])
    (by norm_num [find_nearest, find_nearest_go, is_empty, distance2D_to,
      pd0, srcA, refNearA, refFar, mkPt, aw])

theorem lin_interp_isOk (ys : List ℚ) (x : ℚ) (h0 : 0 ≤ x)
    (h1 : x ≤ (ys.length : ℚ) - 1) : ∃ v, lin_interp ys x = Except.ok v := by
  unfold lin_interp
  rw [if_neg (by push_neg; exact ⟨h0, h1⟩)]
  exact ⟨_, rfl⟩

theorem lin_interp_zero (ys : List ℚ) (h : 1 ≤ ys.length) :
    lin_interp ys 0 = Except.ok (ys.getD 0 0) := by
  unfold lin_interp
  rw [if_neg]
  · norm_num [Nat.zero_min]
  · push_neg
    refine ⟨le_refl 0, by linarith [show (1 : ℚ) ≤ ys.length by exact_mod_cast h]⟩

theorem sample_le (len nn i : ℕ) (hle : nn ≤ len) (hi : i < nn) :
    ((i : ℚ) * len) / nn ≤ (len : ℚ) - 1 := by
  have hpos : (0 : ℚ) < nn := by
    exact_mod_cast Nat.lt_of_le_of_lt (Nat.zero_le i) hi
  rw [div_le_iff hpos]
  have h1 : (i : ℚ) + 1 ≤ nn := by exact_mod_cast hi
  have h2 : (nn : ℚ) ≤ len := by exact_mod_cast hle
  nlinarith [mul_le_mul_of_nonneg_right (show (i : ℚ) ≤ (nn : ℚ) - 1 by linarith)
    (show (0 : ℚ) ≤ len by linarith)]

theorem reconstruct_channel_ok (ys : List ℚ)
    (tps : List TrackPoint3D) (n_nodes : ℕ) (hlen : ys.length = tps.length)
    (hle : n_nodes ≤ tps.length) :
    ∃ r, mapE (lin_interp ys)
      ((List.range n_nodes).map fun i : ℕ => ((i : ℚ) * (tps.length : ℚ)) / (n_nodes : ℚ)) =
      Except.ok r ∧ r.length = n_nodes := by
  have hall : ∀ x ∈ (List.range n_nodes).map
      (fun i : ℕ => ((i : ℚ) * (tps.length : ℚ)) / (n_nodes : ℚ)),
      ∃ v, lin_interp ys x = Except.ok v := by
    intro x hx
    obtain ⟨i, hi, hxi⟩ := List.mem_map.mp hx
    subst hxi
    refine lin_interp_isOk _ _ (by apply div_nonneg <;> positivity) ?_
    rw [hlen]
    exact sample_le tps.length n_nodes i hle (List.mem_range.mp hi)
  obtain ⟨r, hr⟩ := mapE_isOk (lin_interp ys) _ hall
  exact ⟨r, hr, by rw [mapE_length _ _ _ hr]; simp⟩

theorem reconstruct_one (p0 : TrackPoint3D) (rest : List TrackPoint3D)
    (h2 : 2 < (p0 :: rest).length) :
    reconstruct (p0 :: rest) 1 =
      Except.ok [⟨"trkpt" ++ toString 0, p0.lat, p0.long, p0.elevation,
        none, " ", " ", none⟩] := by
  simp only [reconstruct]
  rw [if_pos h2]
  have hxs : ((List.range 1).map fun i : ℕ =>
      ((i : ℚ) * (((p0 :: rest).length : ℕ) : ℚ)) / ((1 : ℕ) : ℚ)) = [0] := by
    norm_num [List.range_succ]
  rw [hxs]
  have hm : ∀ ys : List ℚ, 1 ≤ ys.length →
      mapE (lin_interp ys) [0] = Except.ok [ys.getD 0 0] := by
    intro ys h
    rw [mapE, lin_interp_zero _ h, mapE]
  rw [hm _ (by simp), hm _ (by simp), hm _ (by simp)]
  simp [List.range_succ, List.getD]

/-- Claim C4 (amended): for a track of more than 2 points `reconstruct`
produces exactly `n` interpolated points whenever `n` does not exceed
the number of original points (for larger `n` the sample positions
`i·len/n` run past the interpolation domain `[0, len-1]` and the bounds
check rejects them — see the counterexample); for `n = 1` the single
sample sits at position 0 and reproduces the first point's latitude,
longitude and elevation; tracks of 2 or fewer points are left
unchanged. -/
theorem reconstruct_spec (tps : List TrackPoint3D) (n_nodes : ℕ) :
    (2 < tps.length → n_nodes ≤ tps.length →
      ∃ r, reconstruct tps n_nodes = Except.ok r ∧ r.length = n_nodes) ∧
    (2 < tps.length → ∀ p0, tps.head? = some p0 →
      ∃ q, reconstruct tps 1 = Except.ok [q] ∧
        q.lat = p0.lat ∧ q.long = p0.long ∧ q.elevation = p0.elevation) ∧
    (tps.length ≤ 2 → reconstruct tps n_nodes = Except.ok tps) := by
  refine ⟨?_, ?_, ?_⟩
  · intro h2 hle
    obtain ⟨rlat, hlat, hlatlen⟩ :=
      reconstruct_channel_ok (tps.map TrackPoint3D.lat) tps n_nodes (by simp) hle
    obtain ⟨rlong, hlong, _⟩ :=
      reconstruct_channel_ok (tps.map TrackPoint3D.long) tps n_nodes (by simp) hle
    obtain ⟨relev, helev, _⟩ :=
      reconstruct_channel_ok (tps.map TrackPoint3D.elevation) tps n_nodes (by simp) hle
    have heq : reconstruct tps n_nodes =
        Except.ok ((List.range rlat.length).map fun i =>
          ⟨"trkpt" ++ toString i, rlat.getD i 0, rlong.getD i 0,
            relev.getD i 0, none, " ", " ", none⟩) := by
      simp only [reconstruct]
      rw [if_pos h2, hlat, hlong, helev]
    exact ⟨_, heq, by simp [hlatlen]⟩
  · intro h2 p0 hp0
    cases tps with
    | nil => simp at hp0
    | cons a rest =>
      have ha : a = p0 := by simpa using hp0
      subst ha
      exact ⟨_, reconstruct_one a rest h2, rfl, rfl, rfl⟩
  · intro hle
    simp only [reconstruct]
    rw [if_neg (by omega)]

/-- Counterexample to claim C4 as stated: requesting 4 points from the
3-point track makes the last sample position 3·3/4 = 9/4 exceed the
interpolation domain `[0, 2]`, and the call fails instead of producing
4 points. -/
theorem reconstruct_rejects_upsampling :
    reconstruct [triA, triB, triC] 4 =
      Except.error "ValueError: A value in x_new is out of range" := by
  norm_num [reconstruct, mapE, lin_interp, List.range_succ, triA, triB, triC,
    mkPt]

/-- Witness for the amended C4: the 3-point fixture resampled to 3
points, to 1 point (reproducing the first point's channels), and a
2-point track left unchanged. -/
theorem reconstruct_spec_witness :
    (∃ r, reconstruct [triA, triB, triC] 3 = Except.ok r ∧ r.length = 3) ∧
    (∃ q, reconstruct [triA, triB, triC] 1 = Except.ok [q] ∧
      q.lat = triA.lat ∧ q.long = triA.long ∧ q.elevation = triA.elevation) ∧
    reconstruct [triA, triB] 7 = Except.ok [triA, triB] :=
  ⟨(reconstruct_spec [triA, triB, triC] 3).1 (by norm_num) (by norm_num),
   (reconstruct_spec [triA, triB, triC] 3).2.1 (by norm_num) triA rfl,
   (reconstruct_spec [triA, triB] 7).2.2 (by norm_num)⟩

theorem update_speed_go_cons (pd : ℚ → ℚ → ℚ → ℚ → ℚ)
    (prev r : TrackPoint3D) (rs : List TrackPoint3D) (tr tp : PyDateTime)
    (htr : r.timestamp = some tr) (htp : prev.timestamp = some tp)
    (hdt : ¬(tr.sec - tp.sec = 0)) :
    update_speed_go pd prev (r :: rs) =
      (match update_speed_go pd
          (withSpeed r (distance2D_to pd r prev / (tr.sec - tp.sec))) rs with
        | Except.error e => Except.error e
        | Except.ok tail =>
          Except.ok
            (withSpeed r (distance2D_to pd r prev / (tr.sec - tp.sec)) :: tail)) := by
  simp only [update_speed_go]
  split
  next t2 t1 heq1 heq2 =>
    rw [htr] at heq1
    rw [htp] at heq2
    cases heq1
    cases heq2
    rw [if_neg hdt]
    rfl
  next hno =>
    exact absurd (hno tr tp htr htp) (by simp)

theorem update_speed_go_spec (pd : ℚ → ℚ → ℚ → ℚ → ℚ)
    (rest : List TrackPoint3D) :
    ∀ prev : TrackPoint3D, prev.timestamp.isSome = true →
    (∀ p ∈ rest, p.timestamp.isSome = true) →
    List.Chain' (fun p q => tsKey p ≠ tsKey q) (prev :: rest) →
    ∃ out, update_speed_go pd prev rest = Except.ok out ∧
      out.length = rest.length ∧
      ∀ i pim pi, (prev :: rest).get? i = some pim → rest.get? i = some pi →
        out.get? i =
          some (withSpeed pi (distance2D_to pd pi pim / (tsKey pi - tsKey pim))) := by
  induction rest with
  | nil =>
    intro prev _ _ _
    exact ⟨[], rfl, rfl, by intro i pim pi _ h; simp at h⟩
  | cons r rs ih =>
    intro prev hprev hall hchain
    obtain ⟨tp, htp⟩ := Option.isSome_iff_exists.mp hprev
    obtain ⟨tr, htr⟩ := Option.isSome_iff_exists.mp (hall r (by simp))
    have hkprev : tsKey prev = tp.sec := by simp [tsKey, htp]
    have hkr : tsKey r = tr.sec := by simp [tsKey, htr]
    have hne : tsKey prev ≠ tsKey r := (List.chain'_cons.mp hchain).1
    have hdt : ¬(tr.sec - tp.sec = 0) := by
      rw [hkprev, hkr] at hne
      intro h
      exact hne (by linarith)
    have hchain2 : List.Chain' (fun p q => tsKey p ≠ tsKey q) (r :: rs) :=
      (List.chain'_cons.mp hchain).2
    have hchain' : List.Chain' (fun p q => tsKey p ≠ tsKey q)
        (withSpeed r (distance2D_to pd r prev / (tr.sec - tp.sec)) :: rs) := by
      cases rs with
      | nil => simp
      | cons b bs =>
        rw [List.chain'_cons] at hchain2 ⊢
        exact ⟨hchain2.1, hchain2.2⟩
    obtain ⟨tail, htail, hlen, hidx⟩ := ih
      (withSpeed r (distance2D_to pd r prev / (tr.sec - tp.sec)))
      (by simp [withSpeed, htr]) (fun p hp => hall p (by simp [hp])) hchain'
    refine ⟨withSpeed r (distance2D_to pd r prev / (tr.sec - tp.sec)) :: tail,
      ?_, by simp [hlen], ?_⟩
    · rw [update_speed_go_cons pd prev r rs tr tp htr htp hdt, htail]
    · intro i pim pi hpim hpi
      cases i with
      | zero =>
        simp only [List.get?] at hpim hpi
        cases hpim
        cases hpi
        simp only [List.get?, Option.some_inj]
        rw [hkprev, hkr]
      | succ j =>
        simp only [List.get?] at hpim hpi ⊢
        cases j with
        | zero =>
          simp only [List.get?] at hpim
          cases hpim
          exact hidx 0
            (withSpeed r (distance2D_to pd r prev / (tr.sec - tp.sec))) pi rfl hpi
        | succ k =>
          exact hidx (k + 1) pim pi hpim hpi

/-- Claim C6 (amended): on a track of at least 2 points, all
timestamped with pairwise-distinct consecutive timestamps (equal
timestamps would make the division raise — an unguarded case the spec
records as an open question), `update_speed` sets the first point's
speed to 0 and every later point's speed to the planar distance from
its predecessor divided by the elapsed seconds, printing nothing; a
1-point track reports `Not Enough Data to Calculate Speed` and a
timestamp-less track reports `No Timestamp Data`, both leaving the
points unchanged; an *empty* track, however, returns silently without
reporting anything (the counterexample to the claim as stated). -/
theorem update_speed_spec (pd : ℚ → ℚ → ℚ → ℚ → ℚ)
    (tps : List TrackPoint3D) :
    (2 ≤ tps.length → (∀ p ∈ tps, p.timestamp.isSome = true) →
      List.Chain' (fun p q => tsKey p ≠ tsKey q) tps →
      ∃ res, update_speed pd tps = Except.ok (res, []) ∧
        res.length = tps.length ∧
        (∀ p0, tps.head? = some p0 → res.head? = some (withSpeed p0 0)) ∧
        (∀ i pim pi, tps.get? i = some pim → tps.get? (i + 1) = some pi →
          res.get? (i + 1) =
            some (withSpeed pi (distance2D_to pd pi pim / (tsKey pi - tsKey pim))))) ∧
    (tps.length = 1 →
      update_speed pd tps =
        Except.ok (tps, ["Not Enough Data to Calculate Speed"])) ∧
    (tps = [] → update_speed pd tps = Except.ok (tps, [])) ∧
    (2 ≤ tps.length → has_timestamp tps = false →
      update_speed pd tps = Except.ok (tps, ["No Timestamp Data"])) := by
  refine ⟨?_, ?_, ?_, ?_⟩
  · intro h2 hall hchain
    cases tps with
    | nil => simp at h2
    | cons p0 rest =>
      have hempty : is_empty (p0 :: rest) = false := by simp [is_empty]
      have hlt : ¬((p0 :: rest).length < 2) := by omega
      have hts : has_timestamp (p0 :: rest) = true := by
        simp [has_timestamp, hempty]
        exact hall p0 (by simp)
      have hchain0 : List.Chain' (fun p q => tsKey p ≠ tsKey q)
          (withSpeed p0 0 :: rest) := by
        cases rest with
        | nil => simp
        | cons b bs =>
          rw [List.chain'_cons] at hchain ⊢
          exact ⟨hchain.1, hchain.2⟩
      obtain ⟨out, hgo, hlen, hidx⟩ := update_speed_go_spec pd rest
        (withSpeed p0 0) (by simpa [withSpeed] using hall p0 (by simp))
        (fun p hp => hall p (by simp [hp])) hchain0
      refine ⟨withSpeed p0 0 :: out, ?_, by simp [hlen], ?_, ?_⟩
      · unfold update_speed
        simp only [withSpeed] at hgo ⊢
        rw [hempty, if_neg hlt, hts]
        rw [if_neg (show ¬(false = true) by simp),
          if_neg (show ¬(true = false) by simp)]
        rw [hgo]
      · intro q hq
        simp only [List.head?] at hq
        cases hq
        rfl
      · intro i pim pi hpim hpi
        simp only [List.get?] at hpi ⊢
        cases i with
        | zero =>
          simp only [List.get?] at hpim
          cases hpim
          exact hidx 0 (withSpeed p0 0) pi rfl hpi
        | succ j =>
          simp only [List.get?] at hpim
          exact hidx (j + 1) pim pi hpim hpi
  · intro h1
    cases tps with
    | nil => simp at h1
    | cons p0 rest =>
      have hlen0 : rest.length = 0 := by
        simp only [List.length_cons] at h1
        omega
      have hrest := List.length_eq_zero.mp hlen0
      subst hrest
      rfl
  · intro h
    subst h
    rfl
  · intro h2 hts
    cases tps with
    | nil => simp at h2
    | cons p0 rest =>
      unfold update_speed
      have hempty : is_empty (p0 :: rest) = false := by simp [is_empty]
      rw [hempty, hts]
      rw [if_neg (show ¬(false = true) by simp),
        if_neg (by omega : ¬((p0 :: rest).length < 2)), if_pos rfl]

/-- Counterexample to claim C6 as stated: the claim says every track
with fewer than 2 points "reports the condition"; on the empty track
`update_speed` takes the `is_empty` early return and produces no
message at all (second component `[]`), merely returning `None`. -/
theorem update_speed_empty_reports_nothing :
    update_speed pd0 [] = Except.ok ([], []) := rfl

/-- Witness for the amended C6: the 2-point fixture gets speeds
`[0, 6/10]` and no message; the 1-point fixture reports the
insufficient-data condition. -/
theorem update_speed_spec_witness :
    (∃ res, update_speed pd0 [ptU1, ptU2] = Except.ok (res, []) ∧
      res.length = [ptU1, ptU2].length ∧
      (∀ p0, [ptU1, ptU2].head? = some p0 → res.head? = some (withSpeed p0 0)) ∧
      (∀ i pim pi, [ptU1, ptU2].get? i = some pim →
        [ptU1, ptU2].get? (i + 1) = some pi →
        res.get? (i + 1) =
          some (withSpeed pi (distance2D_to pd0 pi pim / (tsKey pi - tsKey pim))))) ∧
    update_speed pd0 [ptU1] =
      Except.ok ([ptU1], ["Not Enough Data to Calculate Speed"]) :=
  ⟨(update_speed_spec pd0 [ptU1, ptU2]).1 (by norm_num)
      (by norm_num [ptU1, ptU2, mkPt, aw])
      (by norm_num [List.chain'_cons, tsKey, ptU1, ptU2, mkPt, aw]),
   (update_speed_spec pd0 [ptU1]).2.1 (by norm_num)⟩

theorem tsGt_eq (p q : TrackPoint3D) (hp : p.timestamp.isSome = true)
    (hq : q.timestamp.isSome = true) :
    tsGt p q = decide (tsKey q < tsKey p) := by
  obtain ⟨a, ha⟩ := Option.isSome_iff_exists.mp hp
  obtain ⟨b, hb⟩ := Option.isSome_iff_exists.mp hq
  simp [tsGt, tsKey, ha, hb]

theorem sort_pass_perm (l : List TrackPoint3D) :
    ∀ c, List.Perm ((sort_pass c l).1 :: (sort_pass c l).2) (c :: l) := by
  induction l with
  | nil => intro c; exact List.Perm.refl _
  | cons x xs ih =>
    intro c
    cases hgt : tsGt c x
    · simp only [sort_pass, hgt, Bool.false_eq_true, if_false, ite_false]
      exact ((List.Perm.swap x (sort_pass c xs).1 (sort_pass c xs).2).trans
        ((ih c).cons x)).trans (List.Perm.swap c x xs)
    · simp only [sort_pass, hgt, if_true, ite_true]
      exact (List.Perm.swap c (sort_pass x xs).1 (sort_pass x xs).2).trans
        ((ih x).cons c)

theorem sort_pass_min (l : List TrackPoint3D) :
    ∀ c, (∀ x ∈ c :: l, x.timestamp.isSome = true) →
    tsKey (sort_pass c l).1 ≤ tsKey c ∧
      ∀ y ∈ (sort_pass c l).2, tsKey (sort_pass c l).1 ≤ tsKey y := by
  induction l with
  | nil =>
    intro c _
    exact ⟨le_refl _, by intro y hy; simp [sort_pass] at hy⟩
  | cons x xs ih =>
    intro c h
    have hc := h c (by simp)
    have hx := h x (by simp)
    cases hgt : tsGt c x
    · have hle : tsKey c ≤ tsKey x := by
        rw [tsGt_eq c x hc hx] at hgt
        exact not_lt.mp (by simpa using hgt)
      obtain ⟨ih1, ih2⟩ := ih c (fun z hz => by
        rcases List.mem_cons.mp hz with h1 | h1
        · exact h1 ▸ hc
        · exact h z (by simp [h1]))
      simp only [sort_pass, hgt, Bool.false_eq_true, if_false, ite_false]
      refine ⟨ih1, fun y hy => ?_⟩
      rcases List.mem_cons.mp hy with h1 | h1
      · exact h1 ▸ le_trans ih1 hle
      · exact ih2 y h1
    · have hlt : tsKey x < tsKey c := by
        rw [tsGt_eq c x hc hx] at hgt
        exact of_decide_eq_true hgt
      obtain ⟨ih1, ih2⟩ := ih x (fun z hz => by
        rcases List.mem_cons.mp hz with h1 | h1
        · exact h1 ▸ hx
        · exact h z (by simp [h1]))
      simp only [sort_pass, hgt, if_true, ite_true]
      refine ⟨le_trans ih1 (le_of_lt hlt), fun y hy => ?_⟩
      rcases List.mem_cons.mp hy with h1 | h1
      · exact h1 ▸ le_trans ih1 (le_of_lt hlt)
      · exact ih2 y h1

theorem sort_trackpoints_perm (l : List TrackPoint3D) :
    List.Perm (sort_trackpoints l) l := by
  induction l using sort_trackpoints.induct with
  | case1 => rw [sort_trackpoints]
  | case2 x xs p ih =>
    rw [sort_trackpoints]
    exact (ih.cons (sort_pass x xs).1).trans (sort_pass_perm xs x)

theorem sort_trackpoints_pairwise (l : List TrackPoint3D) :
    (∀ p ∈ l, p.timestamp.isSome = true) →
    List.Pairwise (fun p q => tsKey p ≤ tsKey q) (sort_trackpoints l) := by
  induction l using sort_trackpoints.induct with
  | case1 => intro _; rw [sort_trackpoints]; exact List.Pairwise.nil
  | case2 x xs p ih =>
    intro h
    rw [sort_trackpoints]
    rw [List.pairwise_cons]
    have hsub : ∀ z ∈ (sort_pass x xs).2, z ∈ x :: xs := by
      intro z hz
      exact ((sort_pass_perm xs x).mem_iff).mp (by simp [hz])
    have hmin := sort_pass_min xs x h
    refine ⟨?_, ih (fun z hz => h z (hsub z hz))⟩
    intro y hy
    exact hmin.2 y (((sort_trackpoints_perm (sort_pass x xs).2).mem_iff).mp hy)

theorem sort_pass_sorted_eq (l : List TrackPoint3D) :
    ∀ c, (∀ x ∈ c :: l, x.timestamp.isSome = true) →
    List.Pairwise (fun p q => tsKey p ≤ tsKey q) (c :: l) →
    sort_pass c l = (c, l) := by
  induction l with
  | nil => intro c _ _; rfl
  | cons x xs ih =>
    intro c h hs
    have hc := h c (by simp)
    have hx := h x (by simp)
    have hcx : tsKey c ≤ tsKey x := (List.pairwise_cons.mp hs).1 x (by simp)
    have hgt : tsGt c x = false := by
      rw [tsGt_eq c x hc hx]
      simpa using not_lt.mpr hcx
    have hs' : List.Pairwise (fun p q => tsKey p ≤ tsKey q) (c :: xs) := by
      rw [List.pairwise_cons] at hs ⊢
      exact ⟨fun y hy => hs.1 y (by simp [hy]), (List.pairwise_cons.mp hs.2).2⟩
    have h' : ∀ z ∈ c :: xs, z.timestamp.isSome = true := by
      intro z hz
      rcases List.mem_cons.mp hz with h1 | h1
      · exact h1 ▸ hc
      · exact h z (by simp [h1])
    simp only [sort_pass, hgt, Bool.false_eq_true, if_false, ite_false]
    rw [ih c h' hs']

theorem sort_trackpoints_sorted_eq (l : List TrackPoint3D) :
    (∀ p ∈ l, p.timestamp.isSome = true) →
    List.Pairwise (fun p q => tsKey p ≤ tsKey q) l →
    sort_trackpoints l = l := by
  induction l using sort_trackpoints.induct with
  | case1 => intro _ _; rw [sort_trackpoints]
  | case2 x xs p ih =>
    intro h hs
    have hpass : sort_pass x xs = (x, xs) := sort_pass_sorted_eq xs x h hs
    have hp : p = (x, xs) := hpass
    have ih2 : (∀ z ∈ xs, z.timestamp.isSome = true) →
        List.Pairwise (fun p q => tsKey p ≤ tsKey q) xs →
        sort_trackpoints xs = xs := by
      rw [hp] at ih
      exact ih
    rw [sort_trackpoints, hpass]
    show x :: sort_trackpoints xs = x :: xs
    rw [ih2 (fun z hz => h z (by simp [hz])) (List.pairwise_cons.mp hs).2]

/-- Claim C7 (confirmed): on a track whose points all carry timestamps,
the exchange sort of `sort_trackpoints` yields a sequence with
non-decreasing timestamps (adjacent keys are ordered), and applying it
twice gives the same sequence as applying it once — a sorted list makes
every comparison `pt1.timestamp > pt2.timestamp` false, so no swap
fires. -/
theorem sort_trackpoints_spec (l : List TrackPoint3D)
    (h : ∀ p ∈ l, p.timestamp.isSome = true) :
    List.Chain' (fun p q => tsKey p ≤ tsKey q) (sort_trackpoints l) ∧
    sort_trackpoints (sort_trackpoints l) = sort_trackpoints l := by
  have hpair := sort_trackpoints_pairwise l h
  refine ⟨hpair.chain', ?_⟩
  exact sort_trackpoints_sorted_eq (sort_trackpoints l)
    (fun z hz => h z (((sort_trackpoints_perm l).mem_iff).mp hz)) hpair

/-- Witness for C7: the 3-point fixture with timestamps 30, 10, 20 is
sorted into non-decreasing order and sorting it again changes
nothing. -/
theorem sort_trackpoints_spec_witness :
    List.Chain' (fun p q => tsKey p ≤ tsKey q) (sort_trackpoints [ptS1, ptS2, ptS3]) ∧
    sort_trackpoints (sort_trackpoints [ptS1, ptS2, ptS3]) =
      sort_trackpoints [ptS1, ptS2, ptS3] :=
  sort_trackpoints_spec [ptS1, ptS2, ptS3]
    (by norm_num [ptS1, ptS2, ptS3, mkPt, aw])
